import Mathlib

/-!
Verification of the mcprotocol-rs JSON-RPC / MCP core.

This development shallowly embeds the message model and codec
(`src/protocol/mod.rs`, `src/protocol/message.rs`), the stdio transport
halves (`src/transport/stdio/client.rs`, `src/transport/stdio/server.rs`),
the HTTP server half (`src/transport/http/server.rs`) and the example
lifecycle server (`examples/lifecycle_server.rs`), and proves (or refutes)
the specification's claims about them.
-/

namespace Mcp

/-- JSON values, as produced and consumed by `serde_json`.  Numbers are
restricted to integers: every number the embedded code itself produces is an
integer (`i64` request ids, `i32` error codes), and the `RequestId` codec
rejects floating-point ids outright. -/
inductive Json where
  | null : Json
  | bool (b : Bool) : Json
  | num (n : Int) : Json
  | str (s : String) : Json
  | arr (xs : List Json) : Json
  | obj (fields : List (String × Json)) : Json

mutual

/-- Boolean equality on JSON values. -/
def Json.beq : Json → Json → Bool
  | .null, .null => true
  | .bool a, .bool b => a == b
  | .num a, .num b => a == b
  | .str a, .str b => a == b
  | .arr xs, .arr ys => Json.beqList xs ys
  | .obj xs, .obj ys => Json.beqFields xs ys
  | _, _ => false

def Json.beqList : List Json → List Json → Bool
  | [], [] => true
  | x :: xs, y :: ys => Json.beq x y && Json.beqList xs ys
  | _, _ => false

def Json.beqFields : List (String × Json) → List (String × Json) → Bool
  | [], [] => true
  | (k, v) :: xs, (k', v') :: ys => k == k' && Json.beq v v' && Json.beqFields xs ys
  | _, _ => false

end

mutual

theorem Json.eq_of_beq : ∀ {a b : Json}, Json.beq a b = true → a = b
  | .null, .null, _ => rfl
  | .bool _, .bool _, h => by
    simp only [Json.beq, beq_iff_eq] at h; rw [h]
  | .num _, .num _, h => by
    simp only [Json.beq, beq_iff_eq] at h; rw [h]
  | .str _, .str _, h => by
    simp only [Json.beq, beq_iff_eq] at h; rw [h]
  | .arr xs, .arr ys, h => by
    rw [Json.eqList_of_beqList (a := xs) (b := ys) h]
  | .obj xs, .obj ys, h => by
    rw [Json.eqFields_of_beqFields (a := xs) (b := ys) h]

theorem Json.eqList_of_beqList : ∀ {a b : List Json}, Json.beqList a b = true → a = b
  | [], [], _ => rfl
  | x :: xs, y :: ys, h => by
    simp only [Json.beqList, Bool.and_eq_true] at h
    rw [Json.eq_of_beq h.1, Json.eqList_of_beqList h.2]

theorem Json.eqFields_of_beqFields :
    ∀ {a b : List (String × Json)}, Json.beqFields a b = true → a = b
  | [], [], _ => rfl
  | (k, v) :: xs, (k', v') :: ys, h => by
    simp only [Json.beqFields, Bool.and_eq_true, beq_iff_eq] at h
    rw [h.1.1, Json.eq_of_beq h.1.2, Json.eqFields_of_beqFields h.2]

end

mutual

theorem Json.beq_self : ∀ (a : Json), Json.beq a a = true
  | .null => rfl
  | .bool b => by simp [Json.beq]
  | .num n => by simp [Json.beq]
  | .str s => by simp [Json.beq]
  | .arr xs => Json.beqList_self xs
  | .obj xs => Json.beqFields_self xs

theorem Json.beqList_self : ∀ (a : List Json), Json.beqList a a = true
  | [] => rfl
  | x :: xs => by
    simp only [Json.beqList, Bool.and_eq_true]
    exact ⟨Json.beq_self x, Json.beqList_self xs⟩

theorem Json.beqFields_self : ∀ (a : List (String × Json)), Json.beqFields a a = true
  | [] => rfl
  | (k, v) :: xs => by
    simp only [Json.beqFields, Bool.and_eq_true, beq_iff_eq]
    exact ⟨⟨trivial, Json.beq_self v⟩, Json.beqFields_self xs⟩

end

instance : DecidableEq Json := fun a b =>
  if h : Json.beq a b = true then .isTrue (Json.eq_of_beq h)
  else .isFalse (fun he => h (he ▸ Json.beq_self a))

/-- First field of an object with the given key, as `serde_json::Value::get`
on object maps (keys in the maps the code builds are distinct). -/
def findField (fields : List (String × Json)) (name : String) : Option Json :=
  match fields with
  | [] => none
  | (k, v) :: rest => if k = name then some v else findField rest name

/-- `Value::get` : field lookup that yields `none` on non-objects. -/
def Json.getField (j : Json) (name : String) : Option Json :=
  match j with
  | .obj fields => findField fields name
  | _ => none

/-- `RequestId` from `src/protocol/mod.rs`: untagged union of a JSON string
and a JSON (64-bit) integer. -/
inductive RequestId where
  | string (s : String) : RequestId
  | number (n : Int) : RequestId
deriving DecidableEq

/-- `ResponseError` from `src/protocol/message.rs`: `code` is Rust `i32`,
`data` is an optional JSON value skipped when absent. -/
structure ResponseError where
  code : Int
  message : String
  data : Option Json
deriving DecidableEq

/-- `Request` from `src/protocol/message.rs`. -/
structure Request where
  jsonrpc : String
  method : String
  params : Option Json
  id : RequestId
deriving DecidableEq

/-- `Response` from `src/protocol/message.rs`. -/
structure Response where
  jsonrpc : String
  id : RequestId
  result : Option Json
  error : Option ResponseError
deriving DecidableEq

/-- `Notification` from `src/protocol/message.rs`. -/
structure Notification where
  jsonrpc : String
  method : String
  params : Option Json
deriving DecidableEq

/-- `Message` from `src/protocol/message.rs`: serde-`untagged` union of the
three message shapes, tried in declaration order on inbound JSON. -/
inductive Message where
  | request (r : Request) : Message
  | response (p : Response) : Message
  | notif (n : Notification) : Message
deriving DecidableEq

/-- `JSONRPC_VERSION`-bearing constant `PROTOCOL_VERSION` from
`src/protocol/mod.rs`. -/
def PROTOCOL_VERSION : String := "2024-11-05"

/-- The fixed JSON-RPC version tag. -/
def JSONRPC_VERSION : String := "2.0"

namespace error_codes

def PARSE_ERROR : Int := -32700
def INVALID_REQUEST : Int := -32600
def METHOD_NOT_FOUND : Int := -32601
def INVALID_PARAMS : Int := -32602
def INTERNAL_ERROR : Int := -32603
def SERVER_NOT_INITIALIZED : Int := -32002
def UNKNOWN_ERROR_CODE : Int := -32001
def REQUEST_CANCELLED : Int := -32800

end error_codes

/-! ## Serialization (serde `Serialize` derives)

Fields are emitted in declaration order; optional fields carry
`skip_serializing_if = "Option::is_none"` and are omitted when `None`. -/

/-- Untagged serialization of a request id. -/
def RequestId.toJson : RequestId → Json
  | .string s => .str s
  | .number n => .num n

/-- An optional field: omitted when `none`, emitted when `some`. -/
def optField (name : String) : Option Json → List (String × Json)
  | none => []
  | some v => [(name, v)]

def ResponseError.toJson (e : ResponseError) : Json :=
  .obj ([("code", .num e.code), ("message", .str e.message)] ++ optField "data" e.data)

def Request.toJson (r : Request) : Json :=
  .obj ([("jsonrpc", .str r.jsonrpc), ("method", .str r.method)]
    ++ optField "params" r.params ++ [("id", r.id.toJson)])

def Response.toJson (p : Response) : Json :=
  .obj ([("jsonrpc", .str p.jsonrpc), ("id", p.id.toJson)]
    ++ optField "result" p.result
    ++ optField "error" (p.error.map ResponseError.toJson))

def Notification.toJson (n : Notification) : Json :=
  .obj ([("jsonrpc", .str n.jsonrpc), ("method", .str n.method)]
    ++ optField "params" n.params)

/-- Untagged serialization of a message: the active variant's object. -/
def Message.toJson : Message → Json
  | .request r => r.toJson
  | .response p => p.toJson
  | .notif n => n.toJson

/-! ## Parsing (serde `Deserialize` derives)

A required `String` field must be present and be a JSON string.  An
`Option<Value>` field is `None` when absent or when present as JSON `null`
(serde's `Option` deserializes `null` to `None`).  `i64`/`i32` fields are
range-checked.  Extra fields are tolerated. -/

/-- Parse of a required `String` struct field. -/
def parseStr (j : Json) (name : String) : Option String :=
  match j.getField name with
  | some (.str s) => some s
  | _ => none

/-- Parse of an `Option<Value>` struct field: absent or `null` is `none`. -/
def parseOptValue (j : Json) (name : String) : Option Json :=
  match j.getField name with
  | none => none
  | some v => if v = .null then none else some v

/-- Untagged parse of a `RequestId`: a JSON string, or a JSON integer in
`i64` range; `null`, floats, arrays and objects are rejected. -/
def RequestId.fromJson : Json → Option RequestId
  | .str s => some (.string s)
  | .num n => if -(2 ^ 63) ≤ n ∧ n < 2 ^ 63 then some (.number n) else none
  | _ => none

/-- Parse of a `ResponseError` value (`code : i32` is range-checked). -/
def ResponseError.fromJson (j : Json) : Option ResponseError :=
  match j.getField "code" with
  | some (.num c) =>
    if -(2 ^ 31) ≤ c ∧ c < 2 ^ 31 then
      match parseStr j "message" with
      | some msg => some ⟨c, msg, parseOptValue j "data"⟩
      | none => none
    else none
  | _ => none

/-- Parse of the `Option<ResponseError>` field `error`: absent or `null` is
`none`; a present non-null value must parse as a `ResponseError`. -/
def parseOptError (j : Json) : Option (Option ResponseError) :=
  match j.getField "error" with
  | none => some none
  | some v => if v = .null then some none else (ResponseError.fromJson v).map some

def Request.fromJson (j : Json) : Option Request :=
  match parseStr j "jsonrpc", parseStr j "method", (j.getField "id").bind RequestId.fromJson with
  | some rpc, some m, some id => some ⟨rpc, m, parseOptValue j "params", id⟩
  | _, _, _ => none

def Response.fromJson (j : Json) : Option Response :=
  match parseStr j "jsonrpc", (j.getField "id").bind RequestId.fromJson, parseOptError j with
  | some rpc, some id, some err => some ⟨rpc, id, parseOptValue j "result", err⟩
  | _, _, _ => none

def Notification.fromJson (j : Json) : Option Notification :=
  match parseStr j "jsonrpc", parseStr j "method" with
  | some rpc, some m => some ⟨rpc, m, parseOptValue j "params"⟩
  | _, _ => none

/-- Untagged parse of a `Message`: try `Request`, then `Response`, then
`Notification`, in the declaration order of the enum. -/
def Message.fromJson (j : Json) : Option Message :=
  match Request.fromJson j with
  | some r => some (.request r)
  | none =>
    match Response.fromJson j with
    | some p => some (.response p)
    | none =>
      match Notification.fromJson j with
      | some n => some (.notif n)
      | none => none

/-! ## Well-formedness

The Rust types guarantee ranges (`i64` ids, `i32` codes) that the Lean
model states explicitly; and round-tripping requires that no present
optional field holds JSON `null` (serde collapses a present `null` into an
absent field on re-parse). -/

def RequestId.wf : RequestId → Bool
  | .string _ => true
  | .number n => decide (-(2 ^ 63) ≤ n ∧ n < 2 ^ 63)

def ResponseError.wf (e : ResponseError) : Bool :=
  decide (-(2 ^ 31) ≤ e.code ∧ e.code < 2 ^ 31) && decide (e.data ≠ some .null)

def Message.wf : Message → Bool
  | .request r => r.id.wf && decide (r.params ≠ some .null)
  | .response p =>
    p.id.wf && decide (p.result ≠ some .null)
      && (match p.error with
          | none => true
          | some e => e.wf)
  | .notif n => decide (n.params ≠ some .null)


/-! ## Round trip of the codec -/

theorem Request.roundtripRequest (r : Request) (hid : r.id.wf = true)
    (hp : r.params ≠ some .null) :
    Request.fromJson (Request.toJson r) = some r := by
  obtain ⟨rpc, meth, params, id⟩ := r
  simp only [RequestId.wf] at hid
  rcases params with _ | v
  · cases id with
    | string s =>
      simp [Request.toJson, Request.fromJson, RequestId.toJson, RequestId.fromJson,
        parseStr, parseOptValue, Json.getField, findField, optField]
    | number n =>
      rw [decide_eq_true_iff] at hid
      norm_num at hid
      simp [Request.toJson, Request.fromJson, RequestId.toJson, RequestId.fromJson,
        parseStr, parseOptValue, Json.getField, findField, optField, hid.1, hid.2]
  · simp only [ne_eq, Option.some.injEq] at hp
    cases id with
    | string s =>
      simp [Request.toJson, Request.fromJson, RequestId.toJson, RequestId.fromJson,
        parseStr, parseOptValue, Json.getField, findField, optField, hp]
    | number n =>
      rw [decide_eq_true_iff] at hid
      norm_num at hid
      simp [Request.toJson, Request.fromJson, RequestId.toJson, RequestId.fromJson,
        parseStr, parseOptValue, Json.getField, findField, optField, hid.1, hid.2, hp]

theorem ResponseError.roundtripErrorObj (e : ResponseError) (he : e.wf = true) :
    ResponseError.fromJson (ResponseError.toJson e) = some e := by
  obtain ⟨code, msg, data⟩ := e
  simp only [ResponseError.wf, Bool.and_eq_true, decide_eq_true_iff] at he
  obtain ⟨hc, hd⟩ := he
  norm_num at hc
  rcases data with _ | v
  · simp [ResponseError.toJson, ResponseError.fromJson, parseStr, parseOptValue,
      Json.getField, findField, optField, hc.1, hc.2]
  · simp only [ne_eq, Option.some.injEq] at hd
    simp [ResponseError.toJson, ResponseError.fromJson, parseStr, parseOptValue,
      Json.getField, findField, optField, hc.1, hc.2, hd]

theorem Response.toJson_no_method (p : Response) :
    (Response.toJson p).getField "method" = none := by
  obtain ⟨rpc, id, result, err⟩ := p
  rcases result with _ | v <;> rcases err with _ | e <;>
    simp [Response.toJson, Json.getField, findField, optField]

theorem Notification.toJson_no_id (n : Notification) :
    (Notification.toJson n).getField "id" = none := by
  obtain ⟨rpc, meth, params⟩ := n
  rcases params with _ | v <;>
    simp [Notification.toJson, Json.getField, findField, optField]

theorem Request.fromJson_of_no_method (j : Json) (h : j.getField "method" = none) :
    Request.fromJson j = none := by
  simp [Request.fromJson, parseStr, h]

theorem Request.fromJson_none_of_no_id (j : Json) (h : j.getField "id" = none) :
    Request.fromJson j = none := by
  unfold Request.fromJson
  rw [h]
  rcases parseStr j "jsonrpc" with _ | a <;> rcases parseStr j "method" with _ | b <;> rfl

theorem Response.fromJson_none_without_id (j : Json) (h : j.getField "id" = none) :
    Response.fromJson j = none := by
  unfold Response.fromJson
  rw [h]
  rcases parseStr j "jsonrpc" with _ | a <;> rcases parseOptError j with _ | b <;> rfl

theorem Response.roundtripResponse (p : Response) (hid : p.id.wf = true)
    (hr : p.result ≠ some .null)
    (he : ∀ e, p.error = some e → e.wf = true) :
    Response.fromJson (Response.toJson p) = some p := by
  obtain ⟨rpc, id, result, err⟩ := p
  simp only [RequestId.wf] at hid
  have hidj : (Json.obj ([("jsonrpc", .str rpc), ("id", id.toJson)]
      ++ optField "result" result
      ++ optField "error" (err.map ResponseError.toJson))).getField "id"
      = some id.toJson := by
    rcases result with _ | v <;> rcases err with _ | e <;>
      simp [Json.getField, findField, optField, RequestId.toJson]
  have hidp : RequestId.fromJson id.toJson = some id := by
    cases id with
    | string s => rfl
    | number n =>
      rw [decide_eq_true_iff] at hid
      norm_num at hid
      simp [RequestId.toJson, RequestId.fromJson, hid.1, hid.2]
  have hrpc : parseStr (Response.toJson ⟨rpc, id, result, err⟩) "jsonrpc" = some rpc := by
    rcases result with _ | v <;> rcases err with _ | e <;>
      simp [Response.toJson, parseStr, Json.getField, findField, optField]
  have hres : parseOptValue (Response.toJson ⟨rpc, id, result, err⟩) "result" = result := by
    rcases result with _ | v <;> rcases err with _ | e <;>
      simp_all [Response.toJson, parseOptValue, Json.getField, findField, optField]
  have herr : parseOptError (Response.toJson ⟨rpc, id, result, err⟩) = some err := by
    rcases err with _ | e
    · rcases result with _ | v <;>
        simp [Response.toJson, parseOptError, Json.getField, findField, optField]
    · have hew : e.wf = true := he e rfl
      have : ResponseError.toJson e ≠ Json.null := by
        obtain ⟨c, m, d⟩ := e
        rcases d with _ | v <;> simp [ResponseError.toJson, optField]
      rcases result with _ | v <;>
        simp [Response.toJson, parseOptError, Json.getField, findField, optField, this,
          ResponseError.roundtripErrorObj e hew]
  unfold Response.fromJson
  rw [show (Response.toJson ⟨rpc, id, result, err⟩).getField "id" = some id.toJson from hidj,
    hrpc, herr]
  simp [hidp, hres]

theorem Notification.roundtripNotif (n : Notification) (hp : n.params ≠ some .null) :
    Notification.fromJson (Notification.toJson n) = some n := by
  obtain ⟨rpc, meth, params⟩ := n
  rcases params with _ | v
  · simp [Notification.toJson, Notification.fromJson, parseStr, parseOptValue,
      Json.getField, findField, optField]
  · simp only [ne_eq, Option.some.injEq] at hp
    simp [Notification.toJson, Notification.fromJson, parseStr, parseOptValue,
      Json.getField, findField, optField, hp]

/-- Round trip of the whole untagged codec on well-formed messages. -/
theorem Message.roundtripMessage (m : Message) (h : m.wf = true) :
    Message.fromJson (Message.toJson m) = some m := by
  cases m with
  | request r =>
    simp only [Message.wf, Bool.and_eq_true, decide_eq_true_iff] at h
    unfold Message.fromJson
    rw [show Message.toJson (.request r) = Request.toJson r from rfl,
      Request.roundtripRequest r h.1 h.2]
  | response p =>
    simp only [Message.wf, Bool.and_eq_true, decide_eq_true_iff] at h
    have he : ∀ e, p.error = some e → e.wf = true := by
      intro e hpe
      rcases hp : p.error with _ | e'
      · rw [hp] at hpe; cases hpe
      · rw [hp] at hpe
        cases hpe
        have := h.2
        rw [hp] at this
        exact this
    unfold Message.fromJson
    rw [show Message.toJson (.response p) = Response.toJson p from rfl,
      Request.fromJson_of_no_method _ (Response.toJson_no_method p),
      Response.roundtripResponse p h.1.1 h.1.2 he]
  | notif n =>
    simp only [Message.wf, decide_eq_true_iff] at h
    unfold Message.fromJson
    rw [show Message.toJson (.notif n) = Notification.toJson n from rfl,
      Request.fromJson_none_of_no_id _ (Notification.toJson_no_id n),
      Response.fromJson_none_without_id _ (Notification.toJson_no_id n),
      Notification.roundtripNotif n h]

/-- C1 (counterexample).  The claim fails as stated: the success response
with JSON `null` result — exactly the reply the code itself builds for
`shutdown` via `Response::success(json!(null), id)` — serializes to an
object whose `result` field is `null`, and serde re-parses a present `null`
optional field as an absent one, so the round trip returns the response
with `result = None`, not the original message. -/
theorem C1_null_result_counterexample :
    Message.fromJson (Message.toJson (.response ⟨"2.0", .number 1, some .null, none⟩))
      = some (.response ⟨"2.0", .number 1, none, none⟩)
    ∧ Message.fromJson (Message.toJson (.response ⟨"2.0", .number 1, some .null, none⟩))
      ≠ some (.response ⟨"2.0", .number 1, some .null, none⟩) := by
  constructor
  · decide
  · decide

/-- C1 (amended).  For every message whose numeric fields are in the Rust
ranges (`i64` id, `i32` error code) and in which no present optional field
(`params`, `result`, `error.data`) is the JSON value `null`, parsing the
serialized form yields the original message — same variant, same fields —
for Requests, success Responses, error Responses and Notifications. -/
theorem C1_roundtrip_amended (m : Message) (h : m.wf = true) :
    Message.fromJson (Message.toJson m) = some m :=
  Message.roundtripMessage m h

/-- Witness for C1: the round trip at a concrete ping request, a concrete
success response, a concrete error response and a concrete notification. -/
theorem C1_roundtrip_witness :
    Message.wf (.request ⟨"2.0", "ping", none, .string "ping-1"⟩) = true
    ∧ Message.fromJson (Message.toJson (.request ⟨"2.0", "ping", none, .string "ping-1"⟩))
        = some (.request ⟨"2.0", "ping", none, .string "ping-1"⟩)
    ∧ Message.wf (.response ⟨"2.0", .string "ping-1", some (.obj []), none⟩) = true
    ∧ Message.fromJson (Message.toJson (.response ⟨"2.0", .string "ping-1", some (.obj []), none⟩))
        = some (.response ⟨"2.0", .string "ping-1", some (.obj []), none⟩)
    ∧ Message.wf (.response ⟨"2.0", .number 7,
          none, some ⟨-32601, "Method not found", none⟩⟩) = true
    ∧ Message.fromJson (Message.toJson (.response ⟨"2.0", .number 7,
          none, some ⟨-32601, "Method not found", none⟩⟩))
        = some (.response ⟨"2.0", .number 7, none, some ⟨-32601, "Method not found", none⟩⟩)
    ∧ Message.wf (.notif ⟨"2.0", "initialized", none⟩) = true
    ∧ Message.fromJson (Message.toJson (.notif ⟨"2.0", "initialized", none⟩))
        = some (.notif ⟨"2.0", "initialized", none⟩) :=
  ⟨by decide, C1_roundtrip_amended _ (by decide),
   by decide, C1_roundtrip_amended _ (by decide),
   by decide, C1_roundtrip_amended _ (by decide),
   by decide, C1_roundtrip_amended _ (by decide)⟩

/-! ## Request-id uniqueness (`Request::validate_id_uniqueness`) -/

/-- The canonical text an id contributes to the session's `used_ids`
set: strings verbatim, integers via base-10 `to_string`. -/
def RequestId.canonicalText : RequestId → String
  | .string s => s
  | .number n => toString n

/-- `Request::validate_id_uniqueness` from `src/protocol/message.rs`:
project the id to its canonical text and insert it into the session's
`HashSet<String>`; the returned flag is `HashSet::insert`'s — `true`
exactly when the text was not yet present. -/
def Request.validate_id_uniqueness (r : Request) (used_ids : Finset String) :
    Bool × Finset String :=
  (decide (r.id.canonicalText ∉ used_ids), insert r.id.canonicalText used_ids)

/-- C2: within a session, inserting a request id succeeds (returns `true`)
the first time, the inserted canonical text stays in the set, and any later
request whose id has the same canonical text is rejected (returns `false`);
integer `1` and string `"1"` have the same canonical text, so they collide. -/
theorem C2_id_uniqueness (S : Finset String) (r r' : Request)
    (hfresh : r.id.canonicalText ∉ S)
    (hsame : r'.id.canonicalText = r.id.canonicalText) :
    (r.validate_id_uniqueness S).1 = true
    ∧ r.id.canonicalText ∈ (r.validate_id_uniqueness S).2
    ∧ (∀ S' : Finset String, r.id.canonicalText ∈ S' →
        (r'.validate_id_uniqueness S').1 = false)
    ∧ (r'.validate_id_uniqueness (r.validate_id_uniqueness S).2).1 = false
    ∧ RequestId.canonicalText (.number 1) = RequestId.canonicalText (.string "1") := by
  refine ⟨by simp [Request.validate_id_uniqueness, hfresh], ?_, ?_, ?_, by decide⟩
  · simp [Request.validate_id_uniqueness]
  · intro S' hmem
    simp [Request.validate_id_uniqueness, hsame, hmem]
  · simp [Request.validate_id_uniqueness, hsame]

/-- Witness for C2: in a fresh session the integer id `1` inserts with
`true`, and the string id `"1"` is then rejected with `false`. -/
theorem C2_id_uniqueness_witness :
    (Request.validate_id_uniqueness ⟨"2.0", "ping", none, .number 1⟩ ∅).1 = true
    ∧ (Request.validate_id_uniqueness ⟨"2.0", "tools/list", none, .string "1"⟩
        (Request.validate_id_uniqueness ⟨"2.0", "ping", none, .number 1⟩ ∅).2).1 = false :=
  ⟨(C2_id_uniqueness ∅ ⟨"2.0", "ping", none, .number 1⟩
      ⟨"2.0", "tools/list", none, .string "1"⟩ (by decide) (by decide)).1,
   (C2_id_uniqueness ∅ ⟨"2.0", "ping", none, .number 1⟩
      ⟨"2.0", "tools/list", none, .string "1"⟩ (by decide) (by decide)).2.2.2.1⟩

/-! ## The crate's `Error` type (`src/error.rs`), the variants the embedded
code constructs. -/

inductive Error where
  | jsonRpc (code : Int) (message : String) : Error
  | protocol (s : String) : Error
  | transport (s : String) : Error
  | serialization (s : String) : Error
deriving DecidableEq

/-! ## Text rendering (`serde_json::to_string`, compact form)

Needed for the subprocess framing claim: `to_string` escapes `"`, a
backslash, and every control character below `0x20` (`\b \t \n \f \r`
named, the rest as `\u00XX`), so the only way a literal byte can appear in
the output is by being a non-control source character. -/

/-- Lowercase hex digit. -/
def hexDigit (n : Nat) : Char :=
  if n < 10 then Char.ofNat (48 + n) else Char.ofNat (87 + n)

/-- `serde_json`'s escaping of one character inside a JSON string. -/
def escapeChar (c : Char) : List Char :=
  if c = '"' then ['\\', '"']
  else if c = '\\' then ['\\', '\\']
  else if c = '\x08' then ['\\', 'b']
  else if c = '\t' then ['\\', 't']
  else if c = '\n' then ['\\', 'n']
  else if c = '\x0c' then ['\\', 'f']
  else if c = '\r' then ['\\', 'r']
  else if c.toNat < 0x20 then
    ['\\', 'u', '0', '0', hexDigit (c.toNat / 16), hexDigit (c.toNat % 16)]
  else [c]

/-- Escaped body of a JSON string literal. -/
def escapeString (s : String) : List Char :=
  (s.data.map escapeChar).flatten

mutual

/-- Compact rendering of a JSON value, one character per list entry. -/
def renderJson : Json → List Char
  | .null => "null".data
  | .bool b => if b then "true".data else "false".data
  | .num n => (toString n).data
  | .str s => '"' :: (escapeString s ++ ['"'])
  | .arr xs => '[' :: (renderSeq xs ++ [']'])
  | .obj fs => '\x7b' :: (renderFieldSeq fs ++ ['\x7d'])

/-- Comma-separated array elements. -/
def renderSeq : List Json → List Char
  | [] => []
  | [x] => renderJson x
  | x :: y :: xs => renderJson x ++ ',' :: renderSeq (y :: xs)

/-- Comma-separated `"key":value` object fields. -/
def renderFieldSeq : List (String × Json) → List Char
  | [] => []
  | [(k, v)] => '"' :: (escapeString k ++ '"' :: ':' :: renderJson v)
  | (k, v) :: f :: fs =>
    ('"' :: (escapeString k ++ '"' :: ':' :: renderJson v)) ++ ',' :: renderFieldSeq (f :: fs)

end

/-! ## Subprocess framing (`StdioClient::send`, `StdioServer::send`)

Both halves serialize the message, refuse it with a Transport error before
writing anything if the serialized text contains a literal newline, and
otherwise write the text followed by exactly one `\n` and flush. -/

/-- Bytes written to the peer plus the call's result. -/
instance : DecidableEq (Except Error Unit) := fun a b =>
  match a, b with
  | .ok x, .ok y => .isTrue (by cases x; cases y; rfl)
  | .error x, .error y => if h : x = y then .isTrue (by rw [h]) else .isFalse (by simp [h])
  | .ok _, .error _ => .isFalse (by simp)
  | .error _, .ok _ => .isFalse (by simp)

structure SendOutcome where
  written : List Char
  result : Except Error Unit
deriving DecidableEq

/-- `StdioClient::send` from `src/transport/stdio/client.rs` (with the
child's stdin present). -/
def StdioClient.send (m : Message) : SendOutcome :=
  let json := renderJson (Message.toJson m)
  if '\n' ∈ json then
    ⟨[], .error (.transport "Message contains embedded newlines")⟩
  else
    ⟨json ++ ['\n'], .ok ()⟩

/-- `StdioServer::send` from `src/transport/stdio/server.rs`: the same
newline guard and framing, on the server's own stdout. -/
def StdioServer.send (m : Message) : SendOutcome :=
  let json := renderJson (Message.toJson m)
  if '\n' ∈ json then
    ⟨[], .error (.transport "Message contains embedded newlines")⟩
  else
    ⟨json ++ ['\n'], .ok ()⟩

/-- C5: on either half of the subprocess transport, a message whose
serialized JSON contains a literal newline is refused with a Transport
error and no bytes are written; any other message is written as its
serialized JSON plus a trailing `\n`, so the written bytes contain exactly
one `\n` and it is the last byte. -/
theorem C5_newline_framing (m : Message) :
    ( '\n' ∈ renderJson (Message.toJson m) →
      StdioClient.send m = ⟨[], .error (.transport "Message contains embedded newlines")⟩
      ∧ StdioServer.send m = ⟨[], .error (.transport "Message contains embedded newlines")⟩)
    ∧ ( '\n' ∉ renderJson (Message.toJson m) →
      (StdioClient.send m).written.count '\n' = 1
      ∧ (StdioClient.send m).written.getLast? = some '\n'
      ∧ (StdioClient.send m).result = .ok ()
      ∧ StdioServer.send m = StdioClient.send m) := by
  constructor
  · intro h
    simp [StdioClient.send, StdioServer.send, h]
  · intro h
    have hc : (renderJson (Message.toJson m)).count '\n' = 0 :=
      List.count_eq_zero.mpr h
    simp [StdioClient.send, StdioServer.send, h, List.count_append, hc,
      List.getLast?_concat]

/-- Witness for C5: the framing of a concrete ping request. -/
theorem C5_newline_framing_witness :
    ('\n' ∉ renderJson (Message.toJson (.request ⟨"2.0", "ping", none, .number 1⟩)))
    ∧ (StdioClient.send (.request ⟨"2.0", "ping", none, .number 1⟩)).written.count '\n' = 1
    ∧ (StdioClient.send (.request ⟨"2.0", "ping", none, .number 1⟩)).written.getLast?
        = some '\n'
    ∧ (StdioClient.send (.request ⟨"2.0", "ping", none, .number 1⟩)).result = .ok ()
    ∧ StdioServer.send (.request ⟨"2.0", "ping", none, .number 1⟩)
        = StdioClient.send (.request ⟨"2.0", "ping", none, .number 1⟩) := by
  refine ⟨by decide, ?_⟩
  exact (C5_newline_framing (.request ⟨"2.0", "ping", none, .number 1⟩)).2 (by decide)

/-! ## Subprocess client close (`StdioClient::close`)

`close` takes the child handle; when one is present it drops the stdin
handle (an EOF for the server) and then awaits `child.wait()` — with no
timeout and no `kill` call anywhere.  The observable behavior is recorded
as the ordered list of process actions performed plus the call's result;
a child that never exits makes the unbounded `wait` never return. -/

/-- How the child behaves after stdin is closed. -/
inductive ChildBehavior where
  | exits (code : Int) : ChildBehavior
  | neverExits : ChildBehavior
deriving DecidableEq

/-- Process-level actions `close` can perform on the child. -/
inductive CloseAct where
  | closeStdin : CloseAct
  | waitChild : CloseAct
  | killChild : CloseAct
deriving DecidableEq

/-- Actions performed and result returned; `result = none` means the call
never returns. -/
structure CloseOutcome where
  acts : List CloseAct
  result : Option (Except Error Unit)
deriving DecidableEq

/-- `StdioClient::close` from `src/transport/stdio/client.rs`, as a
function of the child handle's state and the child's behavior. -/
def StdioClient.close : Option ChildBehavior → CloseOutcome
  | none => ⟨[], some (.ok ())⟩
  | some (.exits code) =>
    ⟨[.closeStdin, .waitChild],
      some (if code = 0 then .ok ()
        else .error (.transport
          ("Server process exited with status: exit status: " ++ toString code)))⟩
  | some .neverExits => ⟨[.closeStdin, .waitChild], none⟩

/-- C6 (counterexample).  The claim fails as stated: with a child that does
not exit after stdin closes, `close` performs no kill — `killChild` is not
among its actions — and never returns, instead of force-killing the child
after a bounded timeout. -/
theorem C6_no_force_kill_counterexample :
    CloseAct.killChild ∉ (StdioClient.close (some .neverExits)).acts
    ∧ (StdioClient.close (some .neverExits)).result = none := by
  exact ⟨by decide, rfl⟩

/-- C6 (amended).  When `close` is called with the child still present, it
closes the child's stdin first and then waits for the child with no
timeout, never force-killing it: a child exiting with a non-zero status
surfaces as a Transport error, a zero status as success, and a child that
never exits makes `close` never return. -/
theorem C6_close_amended (b : ChildBehavior) :
    (StdioClient.close (some b)).acts = [.closeStdin, .waitChild]
    ∧ CloseAct.killChild ∉ (StdioClient.close (some b)).acts
    ∧ (∀ code, b = .exits code → code ≠ 0 →
        (StdioClient.close (some b)).result = some (.error (.transport
          ("Server process exited with status: exit status: " ++ toString code))))
    ∧ (b = .exits 0 → (StdioClient.close (some b)).result = some (.ok ()))
    ∧ (b = .neverExits → (StdioClient.close (some b)).result = none) := by
  refine ⟨?_, ?_, ?_, ?_, ?_⟩
  · cases b <;> rfl
  · cases b <;> simp [StdioClient.close]
  · intro c hc hne
    subst hc
    simp [StdioClient.close, hne]
  · intro h
    subst h
    simp [StdioClient.close]
  · intro h
    subst h
    rfl

/-- Witness for C6 (amended): a child that exits with status 1 after stdin
closes yields a Transport error; one that exits cleanly yields success. -/
theorem C6_close_amended_witness :
    (StdioClient.close (some (.exits 1))).result = some (.error (.transport
      ("Server process exited with status: exit status: " ++ toString (1 : Int))))
    ∧ (StdioClient.close (some (.exits 0))).result = some (.ok ()) :=
  ⟨(C6_close_amended (.exits 1)).2.2.1 1 rfl (by decide),
   (C6_close_amended (.exits 0)).2.2.2.1 rfl⟩

/-! ## Response constructors (`Response::success`, `Response::error`) -/

/-- `Response::success` from `src/protocol/message.rs`. -/
def Response.success (result : Json) (id : RequestId) : Response :=
  ⟨JSONRPC_VERSION, id, some result, none⟩

/-- `Response::error` from `src/protocol/message.rs` (named `mkError` here
because `Response.error` is the field accessor). -/
def Response.mkError (e : ResponseError) (id : RequestId) : Response :=
  ⟨JSONRPC_VERSION, id, none, some e⟩

/-! ## HTTP server half (`src/transport/http/server.rs`)

The server's mutable state is its client registry, a map from client id to
`ClientInfo`; the map is modelled as an association list (the `HashMap`'s
entries, in its iteration order) and a client's unbounded outbound channel
as the list of messages delivered to it, oldest first. -/

abbrev ClientId := Nat

/-- `ClientInfo`: outbound channel, last request id, last-activity time. -/
structure ClientInfo where
  queue : List Message
  lastRequestId : Option RequestId
  connectedAt : Nat
deriving DecidableEq

abbrev Registry := List (ClientId × ClientInfo)

/-- `HashMap::get`: the entry with the given client id. -/
def getClient : Registry → ClientId → Option ClientInfo
  | [], _ => none
  | (k, i) :: rest, cid => if k = cid then some i else getClient rest cid

/-- `HashMap::get_mut` followed by an in-place update; absent ids leave the
registry unchanged. -/
def modifyClient : Registry → ClientId → (ClientInfo → ClientInfo) → Registry
  | [], _, _ => []
  | (k, i) :: rest, cid, f =>
    if k = cid then (k, f i) :: rest else (k, i) :: modifyClient rest cid f

/-- `AxumHttpServer::find_client_by_request_id`: the first client (in
iteration order) whose `last_request_id` equals the response's id. -/
def find_client_by_request_id : Registry → RequestId → Option ClientId
  | [], _ => none
  | (k, i) :: rest, rid =>
    if i.lastRequestId = some rid then some k else find_client_by_request_id rest rid

/-- `AxumHttpServer::send_to_client`: push onto the client's outbound
channel; a no-op when the client id is not registered. -/
def send_to_client (clients : Registry) (cid : ClientId) (m : Message) : Registry :=
  modifyClient clients cid (fun i => { i with queue := i.queue ++ [m] })

/-- `AxumHttpServer::send` (the transport-level send): a response goes to
the single client found by `find_client_by_request_id`, or nowhere; a
notification goes to every client; requests are ignored.  Every path
returns `Ok(())`. -/
def AxumHttpServer.send (clients : Registry) (m : Message) :
    Registry × Except Error Unit :=
  match m with
  | .response p =>
    match find_client_by_request_id clients p.id with
    | some cid => (send_to_client clients cid m, .ok ())
    | none => (clients, .ok ())
  | .notif _ =>
    (clients.map (fun e => (e.1, { e.2 with queue := e.2.queue ++ [m] })), .ok ())
  | .request _ => (clients, .ok ())

/-- HTTP status line plus body of the POST handler's reply. -/
structure HttpReply where
  status : Nat
  body : String
deriving DecidableEq

/-- The built-in dispatcher's reply to a request
(`AxumHttpServer::message_handler`, request arm): `ping` → success with
the empty object, `shutdown` → success with JSON null, anything else →
METHOD_NOT_FOUND. -/
def builtinResponse (req : Request) : Response :=
  if req.method = "ping" then Response.success (.obj []) req.id
  else if req.method = "shutdown" then Response.success .null req.id
  else Response.mkError ⟨error_codes.METHOD_NOT_FOUND, "Method not found", none⟩ req.id

/-- Last-activity bump at the top of the handler: a no-op without a valid
`X-Client-ID` header. -/
def bumpActivity (clients : Registry) (clientIdHeader : Option ClientId)
    (now : Nat) : Registry :=
  match clientIdHeader with
  | some cid => modifyClient clients cid (fun i => { i with connectedAt := now })
  | none => clients

/-- `AxumHttpServer::message_handler` for `POST /messages`: bump the
sender's last-activity, then for a request record its id as the sender's
last request id and reply through the sender's channel with
`builtinResponse`; an `exit` notification clears the registry.  The HTTP
reply is `200 "Message sent"` on every path. -/
def message_handler (clients : Registry) (clientIdHeader : Option ClientId)
    (msg : Message) (now : Nat) : Registry × HttpReply :=
  match msg with
  | .request req =>
    match clientIdHeader with
    | some cid =>
      (send_to_client
        (modifyClient (bumpActivity clients clientIdHeader now) cid
          (fun i => { i with lastRequestId := some req.id }))
        cid (.response (builtinResponse req)),
       ⟨200, "Message sent"⟩)
    | none => (bumpActivity clients clientIdHeader now, ⟨200, "Message sent"⟩)
  | .notif n =>
    (if n.method = "exit" then [] else bumpActivity clients clientIdHeader now,
     ⟨200, "Message sent"⟩)
  | .response _ => (bumpActivity clients clientIdHeader now, ⟨200, "Message sent"⟩)

/-- `AxumHttpServer::validate_auth_token`: no configured token accepts
everything; a configured token requires an `Authorization` header that
starts with `"Bearer "` (7 characters) and whose remainder equals the
token exactly.  `starts_with` and the byte-slice `["Bearer ".len()..]` are
modelled on the header's character list; the prefix is pure ASCII, so the
7-byte slice and the 7-character slice agree whenever the prefix test
passes. -/
def validate_auth_token (authHeader : Option String) (auth_token : Option String) :
    Except Error Unit :=
  match auth_token with
  | none => .ok ()
  | some expected =>
    match authHeader with
    | none => .error (.transport "Missing authorization header")
    | some s =>
      if s.data.take 7 ≠ "Bearer ".data then
        .error (.transport "Invalid authorization format")
      else if s.data.drop 7 ≠ expected.data then .error (.transport "Invalid token")
      else .ok ()

/-- The `POST /messages` route: the auth middleware first (401 on
failure), then axum's `Json<Message>` extraction (400 on a malformed
body), then `message_handler`.  `body` is the parse outcome of the POST
body. -/
def postMessages (auth_token : Option String) (authHeader : Option String)
    (clientIdHeader : Option ClientId) (body : Option Message)
    (clients : Registry) (now : Nat) : Registry × HttpReply :=
  match validate_auth_token authHeader auth_token with
  | .error _ => (clients, ⟨401, ""⟩)
  | .ok () =>
    match body with
    | none => (clients, ⟨400, ""⟩)
    | some msg => message_handler clients clientIdHeader msg now

/-- `AxumHttpServer::receive`: unconditionally a Transport error, in every
server state. -/
def AxumHttpServer.receive (_clients : Registry) : Except Error Message :=
  .error (.transport
    "Server does not support direct message receiving. Use HTTP POST endpoint instead.")

/-! ### Registry lemmas -/

theorem getClient_modifyClient_self (R : Registry) (cid : ClientId)
    (f : ClientInfo → ClientInfo) :
    getClient (modifyClient R cid f) cid = (getClient R cid).map f := by
  induction R with
  | nil => rfl
  | cons e rest ih =>
    obtain ⟨k, i⟩ := e
    by_cases h : k = cid <;> simp [getClient, modifyClient, h, ih]

theorem getClient_modifyClient_ne (R : Registry) (cid cid' : ClientId)
    (f : ClientInfo → ClientInfo) (h : cid' ≠ cid) :
    getClient (modifyClient R cid f) cid' = getClient R cid' := by
  induction R with
  | nil => rfl
  | cons e rest ih =>
    obtain ⟨k, i⟩ := e
    by_cases hk : k = cid
    · subst hk
      simp [getClient, modifyClient, Ne.symm h]
    · by_cases hk' : k = cid' <;> simp [getClient, modifyClient, hk, hk', ih, h]

theorem mem_modifyClient_ne (R : Registry) (cid : ClientId)
    (f : ClientInfo → ClientInfo) :
    ∀ e ∈ modifyClient R cid f, e.1 ≠ cid → e ∈ R := by
  induction R with
  | nil => intro e he; cases he
  | cons x rest ih =>
    obtain ⟨k, i⟩ := x
    intro e he hne
    by_cases hk : k = cid
    · subst hk
      simp only [modifyClient, if_pos rfl] at he
      rcases List.mem_cons.mp he with h | h
      · exact absurd (by rw [h]) hne
      · exact List.mem_cons_of_mem _ h
    · simp only [modifyClient, if_neg hk] at he
      rcases List.mem_cons.mp he with h | h
      · exact h ▸ List.mem_cons_self _ _
      · exact List.mem_cons_of_mem _ (ih e h hne)

theorem find_client_eq_of_unique (R : Registry) (cid : ClientId)
    (info : ClientInfo) (X : RequestId)
    (hreg : getClient R cid = some info) (hlast : info.lastRequestId = some X)
    (hother : ∀ e ∈ R, e.1 ≠ cid → e.2.lastRequestId ≠ some X) :
    find_client_by_request_id R X = some cid := by
  induction R with
  | nil => cases hreg
  | cons e rest ih =>
    obtain ⟨k, i⟩ := e
    by_cases hk : k = cid
    · subst hk
      have hii : i = info := by simpa [getClient] using hreg
      subst hii
      simp [find_client_by_request_id, hlast]
    · have hne : i.lastRequestId ≠ some X :=
        hother (k, i) (List.mem_cons_self _ _) hk
      simp only [getClient, if_neg hk] at hreg
      simp only [find_client_by_request_id, if_neg hne]
      exact ih hreg (fun e he hcid => hother e (List.mem_cons_of_mem _ he) hcid)

theorem find_client_eq_none (R : Registry) (X : RequestId)
    (h : ∀ e ∈ R, e.2.lastRequestId ≠ some X) :
    find_client_by_request_id R X = none := by
  induction R with
  | nil => rfl
  | cons e rest ih =>
    obtain ⟨k, i⟩ := e
    have hne : i.lastRequestId ≠ some X := h (k, i) (List.mem_cons_self _ _)
    simp only [find_client_by_request_id, if_neg hne]
    exact ih (fun e he => h e (List.mem_cons_of_mem _ he))

/-- C3: after a `POST /messages` from registered client `cid` carrying a
request with id `X`, the server's registry holds `X` as `cid`'s
last-request-id; while `cid` is the only client whose last-request-id is
`X`, sending a response with id `X` appends it to `cid`'s outbound channel
and leaves every other client's channel (and record) unchanged, returning
success; and when no connected client's last-request-id is `X`, sending
the response changes nothing and still returns success. -/
theorem C3_response_affinity (R : Registry) (cid : ClientId) (info : ClientInfo)
    (req : Request) (p : Response) (X : RequestId) (now : Nat)
    (hreg : getClient R cid = some info)
    (hid : req.id = X) (hpid : p.id = X)
    (hother : ∀ e ∈ R, e.1 ≠ cid → e.2.lastRequestId ≠ some X) :
    ((getClient (message_handler R (some cid) (.request req) now).1 cid).map
        ClientInfo.lastRequestId = some (some X))
    ∧ ((AxumHttpServer.send (message_handler R (some cid) (.request req) now).1
          (.response p)).2 = .ok ())
    ∧ ((getClient (AxumHttpServer.send (message_handler R (some cid) (.request req) now).1
          (.response p)).1 cid).map ClientInfo.queue
        = (getClient (message_handler R (some cid) (.request req) now).1 cid).map
            (fun i => i.queue ++ [.response p]))
    ∧ (∀ cid', cid' ≠ cid →
        getClient (AxumHttpServer.send (message_handler R (some cid) (.request req) now).1
          (.response p)).1 cid'
        = getClient (message_handler R (some cid) (.request req) now).1 cid')
    ∧ ((∀ e ∈ R, e.2.lastRequestId ≠ some X) →
        AxumHttpServer.send R (.response p) = (R, .ok ())) := by
  have hR1 : (message_handler R (some cid) (.request req) now).1
      = send_to_client
          (modifyClient (bumpActivity R (some cid) now) cid
            (fun i => { i with lastRequestId := some req.id }))
          cid (.response (builtinResponse req)) := rfl
  have hbump : bumpActivity R (some cid) now
      = modifyClient R cid (fun i => { i with connectedAt := now }) := rfl
  have hget : getClient (message_handler R (some cid) (.request req) now).1 cid
      = some ⟨info.queue ++ [.response (builtinResponse req)], some req.id, now⟩ := by
    rw [hR1, send_to_client, getClient_modifyClient_self, getClient_modifyClient_self,
      hbump, getClient_modifyClient_self, hreg]
    rfl
  have hother1 : ∀ e ∈ (message_handler R (some cid) (.request req) now).1,
      e.1 ≠ cid → e.2.lastRequestId ≠ some X := by
    intro e he hne
    rw [hR1, send_to_client] at he
    have he2 := mem_modifyClient_ne _ _ _ e he hne
    have he3 := mem_modifyClient_ne _ _ _ e he2 hne
    rw [hbump] at he3
    exact hother e (mem_modifyClient_ne _ _ _ e he3 hne) hne
  have hfind : find_client_by_request_id
      (message_handler R (some cid) (.request req) now).1 X = some cid :=
    find_client_eq_of_unique _ cid _ X hget (by rw [hid]) hother1
  have hsend : AxumHttpServer.send (message_handler R (some cid) (.request req) now).1
      (.response p)
      = (send_to_client (message_handler R (some cid) (.request req) now).1 cid
          (.response p), .ok ()) := by
    simp only [AxumHttpServer.send, hpid, hfind]
  refine ⟨?_, ?_, ?_, ?_, ?_⟩
  · rw [hget, hid]
    rfl
  · rw [hsend]
  · rw [hsend]
    show (getClient (send_to_client (message_handler R (some cid) (.request req) now).1
      cid (.response p)) cid).map ClientInfo.queue = _
    rw [send_to_client, getClient_modifyClient_self, hget]
    rfl
  · intro cid' hne
    rw [hsend]
    show getClient (send_to_client (message_handler R (some cid) (.request req) now).1
      cid (.response p)) cid' = _
    rw [send_to_client, getClient_modifyClient_ne _ _ _ _ hne]
  · intro hnone
    simp only [AxumHttpServer.send, hpid, find_client_eq_none R X hnone]

/-- Witness for C3: two connected clients; client 1 POSTs a ping request
with id `"ping-1"`; the response with that id lands in client 1's channel,
client 2's record is untouched, and send reports success. -/
theorem C3_response_affinity_witness :
    ((getClient (message_handler [(1, ⟨[], none, 0⟩), (2, ⟨[], none, 0⟩)] (some 1)
        (.request ⟨"2.0", "ping", none, .string "ping-1"⟩) 9).1 1).map
        ClientInfo.lastRequestId = some (some (.string "ping-1")))
    ∧ ((AxumHttpServer.send (message_handler [(1, ⟨[], none, 0⟩), (2, ⟨[], none, 0⟩)]
        (some 1) (.request ⟨"2.0", "ping", none, .string "ping-1"⟩) 9).1
        (.response (Response.success (.obj []) (.string "ping-1")))).2 = .ok ())
    ∧ (getClient (AxumHttpServer.send (message_handler [(1, ⟨[], none, 0⟩), (2, ⟨[], none, 0⟩)]
        (some 1) (.request ⟨"2.0", "ping", none, .string "ping-1"⟩) 9).1
        (.response (Response.success (.obj []) (.string "ping-1")))).1 2
      = getClient (message_handler [(1, ⟨[], none, 0⟩), (2, ⟨[], none, 0⟩)]
        (some 1) (.request ⟨"2.0", "ping", none, .string "ping-1"⟩) 9).1 2) := by
  refine ⟨?_, ?_, ?_⟩
  · exact (C3_response_affinity [(1, ⟨[], none, 0⟩), (2, ⟨[], none, 0⟩)] 1 ⟨[], none, 0⟩
      ⟨"2.0", "ping", none, .string "ping-1"⟩ (Response.success (.obj []) (.string "ping-1"))
      (.string "ping-1") 9 (by decide) rfl rfl (by decide)).1
  · exact (C3_response_affinity [(1, ⟨[], none, 0⟩), (2, ⟨[], none, 0⟩)] 1 ⟨[], none, 0⟩
      ⟨"2.0", "ping", none, .string "ping-1"⟩ (Response.success (.obj []) (.string "ping-1"))
      (.string "ping-1") 9 (by decide) rfl rfl (by decide)).2.1
  · exact (C3_response_affinity [(1, ⟨[], none, 0⟩), (2, ⟨[], none, 0⟩)] 1 ⟨[], none, 0⟩
      ⟨"2.0", "ping", none, .string "ping-1"⟩ (Response.success (.obj []) (.string "ping-1"))
      (.string "ping-1") 9 (by decide) rfl rfl (by decide)).2.2.2.1 2 (by decide)

/-- C4: for a `POST /messages` carrying a request from a registered client,
the dispatcher appends to that client's channel a success response with the
empty object for `ping`, a success response with JSON null for `shutdown`,
and a METHOD_NOT_FOUND (−32601) error response for every other method; a
POST carrying the `exit` notification empties the whole registry. -/
theorem C4_builtin_dispatcher (R : Registry) (cid : ClientId) (info : ClientInfo)
    (req : Request) (now : Nat)
    (hreg : getClient R cid = some info) :
    (req.method = "ping" →
      getClient (message_handler R (some cid) (.request req) now).1 cid
        = some ⟨info.queue ++ [.response (Response.success (.obj []) req.id)],
            some req.id, now⟩)
    ∧ (req.method = "shutdown" →
      getClient (message_handler R (some cid) (.request req) now).1 cid
        = some ⟨info.queue ++ [.response (Response.success .null req.id)],
            some req.id, now⟩)
    ∧ (req.method ≠ "ping" → req.method ≠ "shutdown" →
      getClient (message_handler R (some cid) (.request req) now).1 cid
        = some ⟨info.queue ++ [.response (Response.mkError
            ⟨error_codes.METHOD_NOT_FOUND, "Method not found", none⟩ req.id)],
            some req.id, now⟩)
    ∧ error_codes.METHOD_NOT_FOUND = -32601
    ∧ (∀ (hdr : Option ClientId) (n : Notification), n.method = "exit" →
        (message_handler R hdr (.notif n) now).1 = []) := by
  have hR1 : (message_handler R (some cid) (.request req) now).1
      = send_to_client
          (modifyClient (bumpActivity R (some cid) now) cid
            (fun i => { i with lastRequestId := some req.id }))
          cid (.response (builtinResponse req)) := rfl
  have hbump : bumpActivity R (some cid) now
      = modifyClient R cid (fun i => { i with connectedAt := now }) := rfl
  have hget : getClient (message_handler R (some cid) (.request req) now).1 cid
      = some ⟨info.queue ++ [.response (builtinResponse req)], some req.id, now⟩ := by
    rw [hR1, send_to_client, getClient_modifyClient_self, getClient_modifyClient_self,
      hbump, getClient_modifyClient_self, hreg]
    rfl
  refine ⟨?_, ?_, ?_, rfl, ?_⟩
  · intro h
    have hbr : builtinResponse req = Response.success (.obj []) req.id := by
      simp [builtinResponse, h]
    rw [hget, hbr]
  · intro h
    have hbr : builtinResponse req = Response.success .null req.id := by
      simp [builtinResponse, h]
    rw [hget, hbr]
  · intro h1 h2
    have hbr : builtinResponse req = Response.mkError
        ⟨error_codes.METHOD_NOT_FOUND, "Method not found", none⟩ req.id := by
      simp [builtinResponse, h1, h2]
    rw [hget, hbr]
  · intro hdr n h
    cases hdr <;> simp [message_handler, h]

/-- Witness for C4: one registered client; ping, shutdown, an unknown
method, and the `exit` notification, each at a concrete input. -/
theorem C4_builtin_dispatcher_witness :
    (getClient (message_handler [(1, ⟨[], none, 0⟩)] (some 1)
        (.request ⟨"2.0", "ping", none, .number 1⟩) 4).1 1
      = some ⟨[.response (Response.success (.obj []) (.number 1))], some (.number 1), 4⟩)
    ∧ (getClient (message_handler [(1, ⟨[], none, 0⟩)] (some 1)
        (.request ⟨"2.0", "shutdown", none, .number 2⟩) 4).1 1
      = some ⟨[.response (Response.success .null (.number 2))], some (.number 2), 4⟩)
    ∧ (getClient (message_handler [(1, ⟨[], none, 0⟩)] (some 1)
        (.request ⟨"2.0", "tools/list", none, .number 3⟩) 4).1 1
      = some ⟨[.response (Response.mkError
          ⟨error_codes.METHOD_NOT_FOUND, "Method not found", none⟩ (.number 3))],
          some (.number 3), 4⟩)
    ∧ ((message_handler [(1, ⟨[], none, 0⟩)] (some 1)
        (.notif ⟨"2.0", "exit", none⟩) 4).1 = []) := by
  refine ⟨?_, ?_, ?_, ?_⟩
  · simpa using (C4_builtin_dispatcher [(1, ⟨[], none, 0⟩)] 1 ⟨[], none, 0⟩
      ⟨"2.0", "ping", none, .number 1⟩ 4 (by decide)).1 rfl
  · simpa using (C4_builtin_dispatcher [(1, ⟨[], none, 0⟩)] 1 ⟨[], none, 0⟩
      ⟨"2.0", "shutdown", none, .number 2⟩ 4 (by decide)).2.1 rfl
  · simpa using (C4_builtin_dispatcher [(1, ⟨[], none, 0⟩)] 1 ⟨[], none, 0⟩
      ⟨"2.0", "tools/list", none, .number 3⟩ 4 (by decide)).2.2.1 (by decide) (by decide)
  · exact (C4_builtin_dispatcher [(1, ⟨[], none, 0⟩)] 1 ⟨[], none, 0⟩
      ⟨"2.0", "ping", none, .number 1⟩ 4 (by decide)).2.2.2.2 (some 1)
      ⟨"2.0", "exit", none⟩ rfl

/-- The POST handler's HTTP reply is `200 "Message sent"` for every parsed
body, with or without an `X-Client-ID` header. -/
theorem message_handler_reply (R : Registry) (hdr : Option ClientId)
    (m : Message) (now : Nat) :
    (message_handler R hdr m now).2 = ⟨200, "Message sent"⟩ := by
  cases m <;> cases hdr <;> simp [message_handler]

/-- C9 (counterexample).  The claim fails as stated: `X-Client-ID` is not
required — a POST carrying a well-formed ping request but no `X-Client-ID`
header is still answered `200 "Message sent"`, and the registry (including
every client's channel) is left completely unchanged. -/
theorem C9_header_not_required_counterexample :
    postMessages none none none
      (some (.request ⟨"2.0", "ping", none, .number 7⟩))
      [(1, ⟨[], none, 0⟩)] 5
    = ([(1, ⟨[], none, 0⟩)], ⟨200, "Message sent"⟩) := by
  rfl

/-- C9 (amended).  `POST /messages` uses the `X-Client-ID` header to
identify the sender but does not require it: without a usable header the
POST is still answered `200 "Message sent"` and a request body is silently
ignored.  The HTTP status is 401 when bearer-token authentication fails,
400 when the body is malformed JSON (auth having passed), and otherwise
200 with body `"Message sent"`. -/
theorem C9_post_status_amended (auth_token authHeader : Option String)
    (hdr : Option ClientId) (body : Option Message) (R : Registry) (now : Nat) :
    (∀ e, validate_auth_token authHeader auth_token = .error e →
      postMessages auth_token authHeader hdr body R now = (R, ⟨401, ""⟩))
    ∧ (validate_auth_token authHeader auth_token = .ok () → body = none →
      postMessages auth_token authHeader hdr body R now = (R, ⟨400, ""⟩))
    ∧ (validate_auth_token authHeader auth_token = .ok () → ∀ m, body = some m →
      (postMessages auth_token authHeader hdr body R now).2 = ⟨200, "Message sent"⟩)
    ∧ (hdr = none → ∀ req, body = some (.request req) →
        validate_auth_token authHeader auth_token = .ok () →
      postMessages auth_token authHeader hdr body R now = (R, ⟨200, "Message sent"⟩)) := by
  refine ⟨?_, ?_, ?_, ?_⟩
  · intro e he
    simp [postMessages, he]
  · intro hok hb
    simp [postMessages, hok, hb]
  · intro hok m hb
    simp [postMessages, hok, hb, message_handler_reply]
  · intro hh req hb hok
    subst hh hb
    simp [postMessages, hok, message_handler, bumpActivity]

/-- Witness for C9 (amended): with token `"secret"`, a headerless POST is
401; with the right bearer header a malformed body is 400; a well-formed
ping body is 200 `"Message sent"`; and without `X-Client-ID` the registry
is unchanged. -/
theorem C9_post_status_amended_witness :
    postMessages (some "secret") none none none [] 0 = ([], ⟨401, ""⟩)
    ∧ postMessages (some "secret") (some "Bearer secret") none none [] 0 = ([], ⟨400, ""⟩)
    ∧ (postMessages (some "secret") (some "Bearer secret") (some 1)
        (some (.request ⟨"2.0", "ping", none, .number 1⟩)) [] 0).2 = ⟨200, "Message sent"⟩
    ∧ postMessages none none none (some (.request ⟨"2.0", "ping", none, .number 1⟩))
        [(1, ⟨[], none, 0⟩)] 5
      = ([(1, ⟨[], none, 0⟩)], ⟨200, "Message sent"⟩) := by
  refine ⟨?_, ?_, ?_, ?_⟩
  · exact (C9_post_status_amended (some "secret") none none none [] 0).1
      (.transport "Missing authorization header") rfl
  · exact (C9_post_status_amended (some "secret") (some "Bearer secret") none none [] 0).2.1
      (by decide) rfl
  · exact (C9_post_status_amended (some "secret") (some "Bearer secret") (some 1)
      (some (.request ⟨"2.0", "ping", none, .number 1⟩)) [] 0).2.2.1 (by decide) _ rfl
  · exact (C9_post_status_amended none none none
      (some (.request ⟨"2.0", "ping", none, .number 1⟩)) [(1, ⟨[], none, 0⟩)] 5).2.2.2
      rfl _ rfl rfl

/-- C10: the HTTP server half's `receive` returns a Transport error on
every call, in every registry state; it never yields an inbound message
through the transport interface. -/
theorem C10_receive_always_errors (R : Registry) :
    AxumHttpServer.receive R = .error (.transport
      "Server does not support direct message receiving. Use HTTP POST endpoint instead.")
    ∧ ∀ m : Message, AxumHttpServer.receive R ≠ .ok m :=
  ⟨rfl, fun _ h => Except.noConfusion h⟩

/-! ## Lifecycle server (`examples/lifecycle_server.rs`)

The server's loop state is the set of used request-id texts plus the
`initialized` flag; one loop iteration consumes a message and produces the
responses it sends and whether the loop breaks. -/

structure LifecycleState where
  sessionIds : Finset String
  initialized : Bool
deriving DecidableEq

/-- The result object of a successful `initialize`
(`json!` with the example's `ServerCapabilities` and `serverInfo`). -/
def initializeResult : Json :=
  .obj [("protocolVersion", .str PROTOCOL_VERSION),
        ("capabilities", .obj [("logging", .obj [])]),
        ("serverInfo", .obj [("name", .str "Example Server"), ("version", .str "1.0.0")])]

/-- One iteration of the message loop in `examples/lifecycle_server.rs`:
id-uniqueness check first (INVALID_REQUEST on reuse), then `initialize`
(version check against `PROTOCOL_VERSION`; no reply at all when `params`
is absent), `shutdown` and the not-initialized rejection, and the
`initialized` / `exit` notifications.  Returns the new state, the messages
sent, and whether the loop breaks. -/
def lifecycleServerStep (st : LifecycleState) (msg : Message) :
    LifecycleState × List Message × Bool :=
  match msg with
  | .request req =>
    let check := req.validate_id_uniqueness st.sessionIds
    let st' : LifecycleState := ⟨check.2, st.initialized⟩
    if check.1 = false then
      (st', [.response (Response.mkError
        ⟨error_codes.INVALID_REQUEST, "Request ID has already been used", none⟩ req.id)],
       false)
    else if req.method = "initialize" then
      match req.params with
      | some params =>
        let clientVersion :=
          match params.getField "protocolVersion" with
          | some (.str s) => s
          | _ => "unknown"
        if clientVersion ≠ PROTOCOL_VERSION then
          (st', [.response (Response.mkError
            ⟨error_codes.INVALID_REQUEST, "Unsupported protocol version",
              some (.obj [("supported", .arr [.str PROTOCOL_VERSION]),
                ("requested", .str clientVersion)])⟩ req.id)], false)
        else
          (st', [.response (Response.success initializeResult req.id)], false)
      | none => (st', [], false)
    else if req.method = "shutdown" then
      if st'.initialized = false then
        (st', [.response (Response.mkError
          ⟨error_codes.SERVER_NOT_INITIALIZED, "Server not initialized", none⟩ req.id)],
         false)
      else
        (st', [.response (Response.success .null req.id)], true)
    else
      if st'.initialized = false then
        (st', [.response (Response.mkError
          ⟨error_codes.SERVER_NOT_INITIALIZED, "Server not initialized", none⟩ req.id)],
         false)
      else (st', [], false)
  | .notif n =>
    if n.method = "initialized" then (⟨st.sessionIds, true⟩, [], false)
    else if n.method = "exit" then (st, [], true)
    else (st, [], false)
  | .response _ => (st, [], false)

/-- C7: an `initialize` request (fresh id, params present) whose
`protocolVersion` is a string different from `"2024-11-05"` is answered
with exactly one error response: code INVALID_REQUEST (−32600), message
`"Unsupported protocol version"`, and a data object whose `supported`
field is the one-element array `["2024-11-05"]` and whose `requested`
field is the version string the client sent. -/
theorem C7_version_mismatch (st : LifecycleState) (req : Request)
    (params : Json) (v : String)
    (hm : req.method = "initialize")
    (hfresh : req.id.canonicalText ∉ st.sessionIds)
    (hp : req.params = some params)
    (hv : params.getField "protocolVersion" = some (.str v))
    (hne : v ≠ PROTOCOL_VERSION) :
    (lifecycleServerStep st (.request req)).2.1
      = [.response (Response.mkError
          ⟨error_codes.INVALID_REQUEST, "Unsupported protocol version",
            some (.obj [("supported", .arr [.str PROTOCOL_VERSION]),
              ("requested", .str v)])⟩ req.id)]
    ∧ error_codes.INVALID_REQUEST = -32600
    ∧ PROTOCOL_VERSION = "2024-11-05" := by
  refine ⟨?_, rfl, rfl⟩
  simp [lifecycleServerStep, Request.validate_id_uniqueness, hfresh, hm, hp, hv, hne]

/-- Witness for C7: initialize with protocolVersion `"1.0.0"` in a fresh
session is answered with the −32600 error carrying supported/requested. -/
theorem C7_version_mismatch_witness :
    (lifecycleServerStep ⟨∅, false⟩ (.request ⟨"2.0", "initialize",
        some (.obj [("protocolVersion", .str "1.0.0")]), .number 1⟩)).2.1
      = [.response (Response.mkError
          ⟨error_codes.INVALID_REQUEST, "Unsupported protocol version",
            some (.obj [("supported", .arr [.str PROTOCOL_VERSION]),
              ("requested", .str "1.0.0")])⟩ (.number 1))] :=
  (C7_version_mismatch ⟨∅, false⟩
    ⟨"2.0", "initialize", some (.obj [("protocolVersion", .str "1.0.0")]), .number 1⟩
    (.obj [("protocolVersion", .str "1.0.0")]) "1.0.0"
    rfl (by decide) rfl (by decide) (by decide)).1

/-- C8 (counterexample).  The claim fails as stated: after a first
successful `initialize` (id 1), a second `initialize` with a fresh id 2 and
a matching version is answered with a success response, not an
INVALID_REQUEST error — the example server never tracks that initialization
already happened when handling `initialize`. -/
theorem C8_second_initialize_counterexample :
    (lifecycleServerStep
      (lifecycleServerStep ⟨∅, false⟩ (.request ⟨"2.0", "initialize",
        some (.obj [("protocolVersion", .str "2024-11-05")]), .number 1⟩)).1
      (.request ⟨"2.0", "initialize",
        some (.obj [("protocolVersion", .str "2024-11-05")]), .number 2⟩)).2.1
      = [.response (Response.success initializeResult (.number 2))]
    ∧ (Response.success initializeResult (.number 2)).error = none
    ∧ (Response.success initializeResult (.number 2)).result ≠ none := by
  refine ⟨by decide, rfl, by decide⟩

/-- C8 (amended).  A second `initialize` in the same session is answered
with an INVALID_REQUEST (−32600) error exactly when it reuses an
already-used request id (message `"Request ID has already been used"`); a
second `initialize` with a fresh id and a matching `protocolVersion` is
answered with the same success response as a first one. -/
theorem C8_second_initialize_amended (st : LifecycleState) (req : Request)
    (hdup : req.id.canonicalText ∈ st.sessionIds) :
    ((lifecycleServerStep st (.request req)).2.1
      = [.response (Response.mkError
          ⟨error_codes.INVALID_REQUEST, "Request ID has already been used", none⟩ req.id)]
      ∧ error_codes.INVALID_REQUEST = -32600)
    ∧ (∀ (req' : Request) (params : Json),
        req'.method = "initialize" →
        req'.id.canonicalText ∉ st.sessionIds →
        req'.params = some params →
        params.getField "protocolVersion" = some (.str PROTOCOL_VERSION) →
        (lifecycleServerStep st (.request req')).2.1
          = [.response (Response.success initializeResult req'.id)]) := by
  constructor
  · refine ⟨?_, rfl⟩
    simp [lifecycleServerStep, Request.validate_id_uniqueness, hdup]
  · intro req' params hm hfresh hp hv
    simp [lifecycleServerStep, Request.validate_id_uniqueness, hfresh, hm, hp, hv]

/-- Witness for C8 (amended): reusing id 1 for a second initialize yields
the −32600 reuse error; a second initialize with fresh id 2 succeeds. -/
theorem C8_second_initialize_amended_witness :
    ((lifecycleServerStep ⟨insert "1" ∅, false⟩ (.request ⟨"2.0", "initialize",
        some (.obj [("protocolVersion", .str "2024-11-05")]), .number 1⟩)).2.1
      = [.response (Response.mkError
          ⟨error_codes.INVALID_REQUEST, "Request ID has already been used", none⟩
          (.number 1))])
    ∧ ((lifecycleServerStep ⟨insert "1" ∅, false⟩ (.request ⟨"2.0", "initialize",
        some (.obj [("protocolVersion", .str "2024-11-05")]), .number 2⟩)).2.1
      = [.response (Response.success initializeResult (.number 2))]) :=
  ⟨(C8_second_initialize_amended ⟨insert "1" ∅, false⟩
      ⟨"2.0", "initialize", some (.obj [("protocolVersion", .str "2024-11-05")]), .number 1⟩
      (by decide)).1.1,
   (C8_second_initialize_amended ⟨insert "1" ∅, false⟩
      ⟨"2.0", "initialize", some (.obj [("protocolVersion", .str "2024-11-05")]), .number 1⟩
      (by decide)).2
      ⟨"2.0", "initialize", some (.obj [("protocolVersion", .str "2024-11-05")]), .number 2⟩
      (.obj [("protocolVersion", .str "2024-11-05")]) rfl (by decide) rfl (by decide)⟩

end Mcp
